import Mathlib

/-!
Shallow embedding of `src/compare-results.ts` (SDK comparison results
generator).  JavaScript numbers are modelled as exact rationals `ℚ`; the
JavaScript `a || b` idiom on numbers (`0` and absent are falsy) is modelled
by `orElseNum` over `Option ℚ`, and on strings (`""` and absent are falsy)
by `orElseStr` over `Option String`.  Fields that the TypeScript interface
allows to be absent at runtime (the JSON may use either naming convention)
are `Option`-valued.  File-system access is modelled by passing the parsed
content of each result file as `Option (List TestResult)` (`none` = file
absent) and returning the report as `Option Report` (`none` = no report
written).  The generation timestamp is an explicit parameter.
-/

/-- One raw per-task record, mirroring the `TestResult` interface of
`compare-results.ts` (camelCase fields plus optional snake_case variants). -/
structure TestResult where
  testName : Option String
  test_name : Option String
  framework : String
  model : String
  prompt : String
  response : String
  tokensIn : Option ℚ
  tokens_in : Option ℚ
  tokensOut : Option ℚ
  tokens_out : Option ℚ
  cost : Option ℚ
  durationMs : Option ℚ
  duration_ms : Option ℚ
  success : Bool
  error : Option String
deriving Repr, DecidableEq

/-- `BEDROCK_INPUT_PRICE = 15.0` (per 1M tokens). -/
def BEDROCK_INPUT_PRICE : ℚ := 15

/-- `BEDROCK_OUTPUT_PRICE = 75.0` (per 1M tokens). -/
def BEDROCK_OUTPUT_PRICE : ℚ := 75

/-- `calculateBedrockCost` of `compare-results.ts`. -/
def calculateBedrockCost (tokensIn tokensOut : ℚ) : ℚ :=
  tokensIn / 1000000 * BEDROCK_INPUT_PRICE + tokensOut / 1000000 * BEDROCK_OUTPUT_PRICE

/-- JavaScript `a || b` for a possibly-absent number `a`: `a` when present
and non-zero, otherwise `b`. -/
def orElseNum (a : Option ℚ) (b : ℚ) : ℚ :=
  match a with
  | none => b
  | some v => if v = 0 then b else v

/-- The chain `a || b || 0` used by `normaliseResult` for token counts and
durations. -/
def resolveNum (a b : Option ℚ) : ℚ :=
  orElseNum a (orElseNum b 0)

/-- JavaScript `a || b` for a possibly-absent string `a`: `a` when present
and non-empty, otherwise `b`. -/
def orElseStr (a : Option String) (b : String) : String :=
  match a with
  | none => b
  | some s => if s = "" then b else s

/-- The chain `a || b || d` used by `normaliseResult` for the task name. -/
def resolveStr (a b : Option String) (d : String) : String :=
  orElseStr a (orElseStr b d)

/-- `normaliseResult` of `compare-results.ts`: resolve the dual naming
convention, always recompute the cost from the resolved token counts, and
return a record whose snake_case fields are absent. -/
def normaliseResult (r : TestResult) : TestResult :=
  let tokensIn := resolveNum r.tokensIn r.tokens_in
  let tokensOut := resolveNum r.tokensOut r.tokens_out
  let cost := calculateBedrockCost tokensIn tokensOut
  { testName := some (resolveStr r.testName r.test_name "Unknown")
    test_name := none
    framework := r.framework
    model := r.model
    prompt := r.prompt
    response := r.response
    tokensIn := some tokensIn
    tokens_in := none
    tokensOut := some tokensOut
    tokens_out := none
    cost := some cost
    durationMs := some (resolveNum r.durationMs r.duration_ms)
    duration_ms := none
    success := r.success
    error := r.error }

/-- One participant's metrics snapshot inside a comparison entry
(the `piSdk` / `claudeSdk` shape of `ComparisonResult`). -/
structure SdkSnapshot where
  duration : ℚ
  tokensIn : ℚ
  tokensOut : ℚ
  cost : ℚ
  success : Bool
deriving Repr, DecidableEq

/-- The speed verdict strings `"pi" | "claude" | "tie"`. -/
inductive SpeedVerdict where
  | pi
  | claude
  | tie
deriving Repr, DecidableEq

/-- The cost verdict strings `"pi" | "claude" | "tie" | "unknown"`. -/
inductive CostVerdict where
  | pi
  | claude
  | tie
  | unknown
deriving Repr, DecidableEq

/-- The `winner` field of a `ComparisonResult`. -/
structure Winner where
  speed : SpeedVerdict
  cost : CostVerdict
deriving Repr, DecidableEq

/-- One comparison entry (`ComparisonResult` of `compare-results.ts`). -/
structure ComparisonResult where
  testName : String
  piSdk : SdkSnapshot
  claudeSdk : SdkSnapshot
  winner : Winner
deriving Repr, DecidableEq

/-- The task name of a (normalized) record: normalized records always carry
`some` name, so the default only pads the type. -/
def getName (r : TestResult) : String :=
  r.testName.getD ""

/-- `r?.field || 0` / `r?.success || false`: build a snapshot from the
possibly-missing record found for one participant on one task. -/
def mkSnapshot (r : Option TestResult) : SdkSnapshot :=
  { duration := orElseNum (r.bind (fun x => x.durationMs)) 0
    tokensIn := orElseNum (r.bind (fun x => x.tokensIn)) 0
    tokensOut := orElseNum (r.bind (fun x => x.tokensOut)) 0
    cost := orElseNum (r.bind (fun x => x.cost)) 0
    success := match r with | some x => x.success | none => false }

/-- Speed winner determination of `compareResults`: guarded by JavaScript
truthiness of both durations, then the strict 10%-margin rule; the verdict
stays at its initial value `tie` otherwise. -/
def speedVerdict (p c : SdkSnapshot) : SpeedVerdict :=
  if p.duration ≠ 0 ∧ c.duration ≠ 0 then
    if p.duration < c.duration * (9 / 10) then SpeedVerdict.pi
    else if c.duration < p.duration * (9 / 10) then SpeedVerdict.claude
    else SpeedVerdict.tie
  else SpeedVerdict.tie

/-- Cost winner determination of `compareResults`: evaluated only when both
costs are strictly positive, else the verdict stays at its initial value
`unknown`. -/
def costVerdict (p c : SdkSnapshot) : CostVerdict :=
  if 0 < p.cost ∧ 0 < c.cost then
    if p.cost < c.cost * (9 / 10) then CostVerdict.pi
    else if c.cost < p.cost * (9 / 10) then CostVerdict.claude
    else CostVerdict.tie
  else CostVerdict.unknown

/-- Insertion into the `Set<string>` of task names: JavaScript `Set.add`
keeps insertion order and ignores duplicates. -/
def addName (acc : List String) (n : String) : List String :=
  if n ∈ acc then acc else acc ++ [n]

/-- First-discovery-order deduplication, the iteration order of a
JavaScript `Set` filled by successive `add` calls. -/
def dedupFirst (l : List String) : List String :=
  l.foldl addName []

/-- The task names contributed by one (possibly absent) result set, in
record order. -/
def namesOf (rs : Option (List TestResult)) : List String :=
  (rs.getD []).map getName

/-- The `testNames` set of `compareResults`: pi names first, then claude
names, duplicates dropped on first discovery. -/
def collectNames (piRes claudeRes : Option (List TestResult)) : List String :=
  dedupFirst (namesOf piRes ++ namesOf claudeRes)

/-- Build the comparison entry of one task name: `find` each participant's
first record with that name, take snapshots, decide both winners. -/
def mkComparison (piRes claudeRes : Option (List TestResult)) (n : String) : ComparisonResult :=
  let piResult := (piRes.getD []).find? (fun r => getName r == n)
  let claudeResult := (claudeRes.getD []).find? (fun r => getName r == n)
  let piSnap := mkSnapshot piResult
  let claudeSnap := mkSnapshot claudeResult
  { testName := n
    piSdk := piSnap
    claudeSdk := claudeSnap
    winner := { speed := speedVerdict piSnap claudeSnap
                cost := costVerdict piSnap claudeSnap } }

/-- The `comparisons` array of `compareResults`: one entry per collected
task name, in collection order. -/
def buildComparisons (piRes claudeRes : Option (List TestResult)) : List ComparisonResult :=
  (collectNames piRes claudeRes).map (mkComparison piRes claudeRes)

/-- The `piTotals` / `claudeTotals` shape. -/
structure Totals where
  duration : ℚ
  tokensIn : ℚ
  tokensOut : ℚ
  cost : ℚ
  passed : ℕ
deriving Repr, DecidableEq

/-- `piTotals` of `compareResults`: `reduce`-sums plus a success count. -/
def piTotalsOf (cs : List ComparisonResult) : Totals :=
  { duration := cs.foldl (fun s x => s + x.piSdk.duration) 0
    tokensIn := cs.foldl (fun s x => s + x.piSdk.tokensIn) 0
    tokensOut := cs.foldl (fun s x => s + x.piSdk.tokensOut) 0
    cost := cs.foldl (fun s x => s + x.piSdk.cost) 0
    passed := (cs.filter (fun x => x.piSdk.success)).length }

/-- `claudeTotals` of `compareResults`. -/
def claudeTotalsOf (cs : List ComparisonResult) : Totals :=
  { duration := cs.foldl (fun s x => s + x.claudeSdk.duration) 0
    tokensIn := cs.foldl (fun s x => s + x.claudeSdk.tokensIn) 0
    tokensOut := cs.foldl (fun s x => s + x.claudeSdk.tokensOut) 0
    cost := cs.foldl (fun s x => s + x.claudeSdk.cost) 0
    passed := (cs.filter (fun x => x.claudeSdk.success)).length }

/-- The `speedWins` tally shape. -/
structure WinTally where
  pi : ℕ
  claude : ℕ
  tie : ℕ
deriving Repr, DecidableEq

/-- `speedWins` of `compareResults`: per-task speed-winner distribution. -/
def speedWinsOf (cs : List ComparisonResult) : WinTally :=
  { pi := (cs.filter (fun x => decide (x.winner.speed = SpeedVerdict.pi))).length
    claude := (cs.filter (fun x => decide (x.winner.speed = SpeedVerdict.claude))).length
    tie := (cs.filter (fun x => decide (x.winner.speed = SpeedVerdict.tie))).length }

/-- The cost-metric winner distribution as the spec's words describe it
("count of tasks won by each participant plus ties" for the cost metric).
This definition follows the spec, not the source: `compare-results.ts`
computes no such tally, and this definition exists to compare the written
summary against the spec's requirement. -/
def costWinsClaimed (cs : List ComparisonResult) : WinTally :=
  { pi := (cs.filter (fun x => decide (x.winner.cost = CostVerdict.pi))).length
    claude := (cs.filter (fun x => decide (x.winner.cost = CostVerdict.claude))).length
    tie := (cs.filter (fun x => decide (x.winner.cost = CostVerdict.tie))).length }

/-- The `summary` object of the written report. -/
structure Summary where
  piTotals : Totals
  claudeTotals : Totals
  speedWins : WinTally
deriving Repr, DecidableEq

/-- The written `comparison-report.json` content. -/
structure Report where
  comparisons : List ComparisonResult
  summary : Summary
  generatedAt : String
deriving Repr, DecidableEq

/-- Assemble the report object written by `compareResults`, the timestamp
passed explicitly. -/
def mkReport (piRes claudeRes : Option (List TestResult)) (timestamp : String) : Report :=
  let comparisons := buildComparisons piRes claudeRes
  { comparisons := comparisons
    summary :=
      { piTotals := piTotalsOf comparisons
        claudeTotals := claudeTotalsOf comparisons
        speedWins := speedWinsOf comparisons }
    generatedAt := timestamp }

/-- `loadResults`: `none` when the file is absent, otherwise every parsed
record normalized in order. -/
def loadResults (raw : Option (List TestResult)) : Option (List TestResult) :=
  raw.map (fun l => l.map normaliseResult)

/-- `compareResults` end to end: load both result sets, return early
(writing nothing) when both are absent, otherwise write the report. -/
def compareRun (piRaw claudeRaw : Option (List TestResult)) (timestamp : String) : Option Report :=
  let piRes := loadResults piRaw
  let claudeRes := loadResults claudeRaw
  if piRes.isNone ∧ claudeRes.isNone then none
  else some (mkReport piRes claudeRes timestamp)

/-- Everything of a report except its generation timestamp. -/
def reportContent (r : Report) : List ComparisonResult × Summary :=
  (r.comparisons, r.summary)

/-- Participant A's raw record of the end-to-end scenario ("Bug Detection",
7340 ms, 50 in, 454 out, raw cost 0). -/
def recA : TestResult :=
  { testName := some "Bug Detection"
    test_name := none
    framework := "pi-agent-sdk"
    model := "claude-opus"
    prompt := "p"
    response := "r"
    tokensIn := some 50
    tokens_in := none
    tokensOut := some 454
    tokens_out := none
    cost := some 0
    durationMs := some 7340
    duration_ms := none
    success := true
    error := none }

/-- Participant B's raw record of the end-to-end scenario ("Bug Detection",
8160 ms, 50 in, 457 out, raw cost 0). -/
def recB : TestResult :=
  { testName := some "Bug Detection"
    test_name := none
    framework := "anthropic-sdk"
    model := "claude-opus"
    prompt := "p"
    response := "r"
    tokensIn := some 50
    tokens_in := none
    tokensOut := some 457
    tokens_out := none
    cost := some 0
    durationMs := some 8160
    duration_ms := none
    success := true
    error := none }

/-- C1: the normalized cost is always `tokensIn/1e6 * 15 + tokensOut/1e6 * 75`
over the record's own resolved token counts, and the `cost` value carried by
the raw record has no influence on normalization at all. -/
theorem cost_always_recomputed (r : TestResult) (c0 : Option ℚ) :
    (normaliseResult r).cost
      = some ((normaliseResult r).tokensIn.getD 0 / 1000000 * 15
          + (normaliseResult r).tokensOut.getD 0 / 1000000 * 75)
    ∧ normaliseResult { r with cost := c0 } = normaliseResult r :=
  ⟨rfl, rfl⟩

/-- C6: a record populated only under the snake_case convention normalizes to
exactly the same record as one carrying the same values only under the
camelCase convention. -/
theorem convention_independent (nm fw md pr rsp : String) (tin tout dur : ℚ)
    (cst : Option ℚ) (suc : Bool) (err : Option String) :
    normaliseResult
        { testName := some nm, test_name := none, framework := fw, model := md,
          prompt := pr, response := rsp, tokensIn := some tin, tokens_in := none,
          tokensOut := some tout, tokens_out := none, cost := cst,
          durationMs := some dur, duration_ms := none, success := suc, error := err }
      = normaliseResult
        { testName := none, test_name := some nm, framework := fw, model := md,
          prompt := pr, response := rsp, tokensIn := none, tokens_in := some tin,
          tokensOut := none, tokens_out := some tout, cost := cst,
          durationMs := none, duration_ms := some dur, success := suc, error := err } := by
  simp [normaliseResult, resolveNum, resolveStr, orElseNum, orElseStr]

/-- C10: no comparison report is produced exactly when both result files are
absent; with at least one result set present the report is written. -/
theorem report_written_iff_some_results (p c : Option (List TestResult)) (t : String) :
    compareRun p c t = none ↔ p = none ∧ c = none := by
  cases p <;> cases c <;> simp [compareRun, loadResults]

/-- C8: every part of the written report other than `generatedAt` is a
deterministic function of the two loaded result sets — two runs over the same
inputs agree on all content, and the timestamp field is exactly the run's
timestamp. -/
theorem report_deterministic_modulo_timestamp (p c : Option (List TestResult)) (t1 t2 : String) :
    (compareRun p c t1).map reportContent = (compareRun p c t2).map reportContent
    ∧ (mkReport (loadResults p) (loadResults c) t1).generatedAt = t1 := by
  refine ⟨?_, rfl⟩
  cases p <;> cases c <;> simp [compareRun, loadResults, reportContent] <;>
    exact ⟨rfl, rfl⟩

/-- C2: with both durations strictly positive, a participant is the speed
winner exactly when its duration is strictly below 0.9 times the other's,
and the verdict is `tie` otherwise; a zero duration on either side forces
`tie`; two positive durations within 10% of each other (neither below 90%
of the other) tie; and a duration exactly 10.0001% below the slower one
wins. -/
theorem speed_margin_rule (p c : SdkSnapshot) (d : ℚ) :
    (0 < p.duration → 0 < c.duration →
      ((speedVerdict p c = SpeedVerdict.pi ↔ p.duration < c.duration * (9 / 10))
        ∧ (speedVerdict p c = SpeedVerdict.claude ↔ c.duration < p.duration * (9 / 10))
        ∧ (speedVerdict p c = SpeedVerdict.tie ↔
            ¬ p.duration < c.duration * (9 / 10) ∧ ¬ c.duration < p.duration * (9 / 10))))
    ∧ (p.duration = 0 ∨ c.duration = 0 → speedVerdict p c = SpeedVerdict.tie)
    ∧ (0 < p.duration → 0 < c.duration → c.duration * (9 / 10) ≤ p.duration →
        p.duration * (9 / 10) ≤ c.duration → speedVerdict p c = SpeedVerdict.tie)
    ∧ (0 < d →
        speedVerdict ⟨d * (899999 / 1000000), 0, 0, 0, true⟩ ⟨d, 0, 0, 0, true⟩
          = SpeedVerdict.pi) := by
  refine ⟨?_, ?_, ?_, ?_⟩
  · intro hp hc
    have hgate : p.duration ≠ 0 ∧ c.duration ≠ 0 := ⟨ne_of_gt hp, ne_of_gt hc⟩
    unfold speedVerdict
    rw [if_pos hgate]
    split_ifs with h1 h2
    · exact ⟨iff_of_true rfl h1,
        iff_of_false (by simp) (fun hx => by linarith),
        iff_of_false (by simp) (fun hx => hx.1 h1)⟩
    · exact ⟨iff_of_false (by simp) h1,
        iff_of_true rfl h2,
        iff_of_false (by simp) (fun hx => hx.2 h2)⟩
    · exact ⟨iff_of_false (by simp) h1,
        iff_of_false (by simp) h2,
        iff_of_true rfl ⟨h1, h2⟩⟩
  · intro h
    have hgate : ¬(p.duration ≠ 0 ∧ c.duration ≠ 0) := by
      rcases h with h | h <;> simp [h]
    simp [speedVerdict, hgate]
  · intro hp hc hle1 hle2
    have hgate : p.duration ≠ 0 ∧ c.duration ≠ 0 := ⟨ne_of_gt hp, ne_of_gt hc⟩
    unfold speedVerdict
    rw [if_pos hgate, if_neg (not_lt.mpr hle1), if_neg (not_lt.mpr hle2)]
  · intro hd
    have harith : d * (899999 / 1000000) < d * (9 / 10) := by nlinarith
    have hpos : (0 : ℚ) < d * (899999 / 1000000) := by positivity
    simp [speedVerdict, ne_of_gt hpos, ne_of_gt hd, harith]

/-- Witness for `speed_margin_rule` at the concrete durations 7340 and 8160
and at `d = 1000`. -/
theorem speed_margin_rule_witness :
    speedVerdict ⟨7340, 0, 0, 0, true⟩ ⟨8160, 0, 0, 0, true⟩ = SpeedVerdict.pi
    ∧ speedVerdict ⟨(1000 : ℚ) * (899999 / 1000000), 0, 0, 0, true⟩ ⟨1000, 0, 0, 0, true⟩
        = SpeedVerdict.pi :=
  ⟨((speed_margin_rule ⟨7340, 0, 0, 0, true⟩ ⟨8160, 0, 0, 0, true⟩ 1).1
      (show (0 : ℚ) < 7340 by norm_num) (show (0 : ℚ) < 8160 by norm_num)).1.mpr
      (show (7340 : ℚ) < 8160 * (9 / 10) by norm_num),
    (speed_margin_rule ⟨1, 0, 0, 0, true⟩ ⟨1, 0, 0, 0, true⟩ 1000).2.2.2
      (show (0 : ℚ) < 1000 by norm_num)⟩

/-- C3: the cost verdict is `unknown` unless both recomputed costs are
strictly positive; with both strictly positive, a participant wins exactly
when its cost is strictly below 0.9 times the other's and the verdict is
`tie` otherwise; in particular two zero costs give `unknown`, never `tie`. -/
theorem cost_margin_rule (p c : SdkSnapshot) :
    (¬(0 < p.cost ∧ 0 < c.cost) → costVerdict p c = CostVerdict.unknown)
    ∧ (0 < p.cost → 0 < c.cost →
        ((costVerdict p c = CostVerdict.pi ↔ p.cost < c.cost * (9 / 10))
          ∧ (costVerdict p c = CostVerdict.claude ↔ c.cost < p.cost * (9 / 10))
          ∧ (costVerdict p c = CostVerdict.tie ↔
              ¬ p.cost < c.cost * (9 / 10) ∧ ¬ c.cost < p.cost * (9 / 10))))
    ∧ (p.cost = 0 → c.cost = 0 → costVerdict p c = CostVerdict.unknown) := by
  refine ⟨?_, ?_, ?_⟩
  · intro hgate
    simp [costVerdict, hgate]
  · intro hp hc
    unfold costVerdict
    rw [if_pos ⟨hp, hc⟩]
    split_ifs with h1 h2
    · exact ⟨iff_of_true rfl h1,
        iff_of_false (by simp) (fun hx => by linarith),
        iff_of_false (by simp) (fun hx => hx.1 h1)⟩
    · exact ⟨iff_of_false (by simp) h1,
        iff_of_true rfl h2,
        iff_of_false (by simp) (fun hx => hx.2 h2)⟩
    · exact ⟨iff_of_false (by simp) h1,
        iff_of_false (by simp) h2,
        iff_of_true rfl ⟨h1, h2⟩⟩
  · intro hp hc
    have hgate : ¬(0 < p.cost ∧ 0 < c.cost) := by simp [hp]
    simp [costVerdict, hgate]

/-- Witness for `cost_margin_rule`: two zero-cost snapshots yield the
`unknown` verdict. -/
theorem cost_margin_rule_witness :
    costVerdict ⟨1, 0, 0, 0, true⟩ ⟨1, 0, 0, 0, true⟩ = CostVerdict.unknown :=
  (cost_margin_rule ⟨1, 0, 0, 0, true⟩ ⟨1, 0, 0, 0, true⟩).2.2 rfl rfl

/-- Membership after one `Set.add` step. -/
theorem mem_addName (acc : List String) (n x : String) :
    x ∈ addName acc n ↔ x ∈ acc ∨ x = n := by
  unfold addName
  split_ifs with h
  · constructor
    · exact Or.inl
    · rintro (hx | rfl)
      · exact hx
      · exact h
  · simp

/-- One `Set.add` step preserves distinctness. -/
theorem nodup_addName (acc : List String) (n : String) (h : acc.Nodup) :
    (addName acc n).Nodup := by
  unfold addName
  split_ifs with hn
  · exact h
  · simp [List.nodup_append, h, hn]

/-- Filling the name set from any duplicate-free start stays duplicate-free. -/
theorem foldl_addName_nodup (l acc : List String) (h : acc.Nodup) :
    (l.foldl addName acc).Nodup := by
  induction l generalizing acc with
  | nil => exact h
  | cons a l ih => exact ih _ (nodup_addName _ _ h)

/-- The filled name set holds exactly the names already present plus the
names inserted. -/
theorem mem_foldl_addName (l acc : List String) (x : String) :
    x ∈ l.foldl addName acc ↔ x ∈ acc ∨ x ∈ l := by
  induction l generalizing acc with
  | nil => simp
  | cons a l ih =>
    rw [List.foldl_cons, ih, mem_addName]
    simp [or_assoc]

/-- Inserting more names only ever appends to the set's iteration order. -/
theorem foldl_addName_extends (l acc : List String) :
    ∃ t, l.foldl addName acc = acc ++ t := by
  induction l generalizing acc with
  | nil => exact ⟨[], by simp⟩
  | cons a l ih =>
    rw [List.foldl_cons]
    rcases ih (addName acc a) with ⟨t, ht⟩
    rw [ht]
    unfold addName
    split_ifs with h
    · exact ⟨t, rfl⟩
    · exact ⟨[a] ++ t, by simp⟩

/-- First-discovery order is stable: the names collected from a prefix of
the records form a prefix of the names collected from all records. -/
theorem dedupFirst_stable (l1 l2 : List String) :
    dedupFirst l1 <+: dedupFirst (l1 ++ l2) := by
  unfold dedupFirst
  rw [List.foldl_append]
  rcases foldl_addName_extends l2 (List.foldl addName [] l1) with ⟨t, ht⟩
  exact ⟨t, ht.symm⟩

/-- C4: the report has exactly one entry per distinct task name of the union
of both result sets (entry names are the duplicate-free first-discovery-order
collection of both sets' names, and collection order is stable under
extending the inputs); a task with no record for one participant gets the
all-zero `success = false` snapshot for that participant and speed verdict
`tie`, with no failure. -/
theorem union_per_task_entries (p c : Option (List TestResult)) (n : String) :
    ((buildComparisons p c).map (fun e => e.testName) = collectNames p c)
    ∧ (collectNames p c).Nodup
    ∧ (∀ m, m ∈ collectNames p c ↔ m ∈ namesOf p ∨ m ∈ namesOf c)
    ∧ (∀ l1 l2 : List String, dedupFirst l1 <+: dedupFirst (l1 ++ l2))
    ∧ (n ∈ collectNames p c → mkComparison p c n ∈ buildComparisons p c)
    ∧ ((p.getD []).find? (fun r => getName r == n) = none →
        (mkComparison p c n).piSdk = ⟨0, 0, 0, 0, false⟩
          ∧ (mkComparison p c n).winner.speed = SpeedVerdict.tie)
    ∧ ((c.getD []).find? (fun r => getName r == n) = none →
        (mkComparison p c n).claudeSdk = ⟨0, 0, 0, 0, false⟩
          ∧ (mkComparison p c n).winner.speed = SpeedVerdict.tie) := by
  refine ⟨?_, ?_, ?_, dedupFirst_stable, ?_, ?_, ?_⟩
  · unfold buildComparisons
    rw [List.map_map]
    exact List.map_id _
  · exact foldl_addName_nodup _ _ List.nodup_nil
  · intro m
    unfold collectNames dedupFirst
    rw [mem_foldl_addName]
    simp [List.mem_append]
  · intro hn
    exact List.mem_map_of_mem _ hn
  · intro hp
    constructor
    · simp [mkComparison, hp, mkSnapshot, orElseNum]
    · simp [mkComparison, hp, mkSnapshot, orElseNum, speedVerdict]
  · intro hc
    constructor
    · simp [mkComparison, hc, mkSnapshot, orElseNum]
    · simp [mkComparison, hc, mkSnapshot, orElseNum, speedVerdict]

/-- A record present only in the pi result set, used to witness the
missing-participant case. -/
def wPiRec : TestResult :=
  { testName := some "A"
    test_name := none
    framework := "pi-agent-sdk"
    model := "claude-opus"
    prompt := "p"
    response := "r"
    tokensIn := some 10
    tokens_in := none
    tokensOut := some 20
    tokens_out := none
    cost := some 0
    durationMs := some 1000
    duration_ms := none
    success := true
    error := none }

/-- A record present only in the claude result set, used to witness the
missing-participant case. -/
def wClaudeRec : TestResult :=
  { testName := some "B"
    test_name := none
    framework := "anthropic-sdk"
    model := "claude-opus"
    prompt := "p"
    response := "r"
    tokensIn := some 10
    tokens_in := none
    tokensOut := some 20
    tokens_out := none
    cost := some 0
    durationMs := some 1000
    duration_ms := none
    success := true
    error := none }

/-- Witness for `union_per_task_entries`: task "B" has no pi record, so its
entry carries the all-zero pi snapshot and speed verdict `tie`. -/
theorem union_per_task_entries_witness :
    (mkComparison (some [wPiRec]) (some [wClaudeRec]) "B").piSdk = ⟨0, 0, 0, 0, false⟩
    ∧ (mkComparison (some [wPiRec]) (some [wClaudeRec]) "B").winner.speed = SpeedVerdict.tie :=
  (union_per_task_entries (some [wPiRec]) (some [wClaudeRec]) "B").2.2.2.2.2.1 rfl

/-- The `reduce`-style accumulation used for the totals equals a map-sum. -/
theorem foldl_add_eq_sum (f : ComparisonResult → ℚ) (l : List ComparisonResult) (a : ℚ) :
    l.foldl (fun s x => s + f x) a = a + (l.map f).sum := by
  induction l generalizing a with
  | nil => simp
  | cons x l ih => simp [ih, add_assoc]

/-- C7 (amended): each participant's totals in the written report are the
sums of duration, input tokens, output tokens and cost over all comparison
entries plus the count of entries with `success = true`, and the report's
winner-distribution tally counts, for the speed metric only, the tasks each
participant won plus the ties. -/
theorem report_totals_and_speed_tally (p c : Option (List TestResult)) (t : String) :
    ((mkReport p c t).summary.piTotals.duration
        = ((mkReport p c t).comparisons.map (fun x => x.piSdk.duration)).sum)
    ∧ ((mkReport p c t).summary.piTotals.tokensIn
        = ((mkReport p c t).comparisons.map (fun x => x.piSdk.tokensIn)).sum)
    ∧ ((mkReport p c t).summary.piTotals.tokensOut
        = ((mkReport p c t).comparisons.map (fun x => x.piSdk.tokensOut)).sum)
    ∧ ((mkReport p c t).summary.piTotals.cost
        = ((mkReport p c t).comparisons.map (fun x => x.piSdk.cost)).sum)
    ∧ ((mkReport p c t).summary.piTotals.passed
        = (mkReport p c t).comparisons.countP (fun x => x.piSdk.success))
    ∧ ((mkReport p c t).summary.claudeTotals.duration
        = ((mkReport p c t).comparisons.map (fun x => x.claudeSdk.duration)).sum)
    ∧ ((mkReport p c t).summary.claudeTotals.tokensIn
        = ((mkReport p c t).comparisons.map (fun x => x.claudeSdk.tokensIn)).sum)
    ∧ ((mkReport p c t).summary.claudeTotals.tokensOut
        = ((mkReport p c t).comparisons.map (fun x => x.claudeSdk.tokensOut)).sum)
    ∧ ((mkReport p c t).summary.claudeTotals.cost
        = ((mkReport p c t).comparisons.map (fun x => x.claudeSdk.cost)).sum)
    ∧ ((mkReport p c t).summary.claudeTotals.passed
        = (mkReport p c t).comparisons.countP (fun x => x.claudeSdk.success))
    ∧ ((mkReport p c t).summary.speedWins
        = { pi := (mkReport p c t).comparisons.countP
                (fun x => decide (x.winner.speed = SpeedVerdict.pi))
            claude := (mkReport p c t).comparisons.countP
                (fun x => decide (x.winner.speed = SpeedVerdict.claude))
            tie := (mkReport p c t).comparisons.countP
                (fun x => decide (x.winner.speed = SpeedVerdict.tie)) }) := by
  unfold mkReport piTotalsOf claudeTotalsOf speedWinsOf
  refine ⟨?_, ?_, ?_, ?_, ?_, ?_, ?_, ?_, ?_, ?_, ?_⟩
  all_goals first
    | exact (foldl_add_eq_sum _ _ _).trans (zero_add _)
    | simp [List.countP_eq_length_filter]

/-- A pi record whose task ties on speed and has zero cost. -/
def tieTaskPi : TestResult :=
  { testName := some "T"
    test_name := none
    framework := "pi-agent-sdk"
    model := "claude-opus"
    prompt := "p"
    response := "r"
    tokensIn := none
    tokens_in := none
    tokensOut := none
    tokens_out := none
    cost := some 0
    durationMs := some 1000
    duration_ms := none
    success := true
    error := none }

/-- A claude record for the same task with the same duration and zero cost. -/
def tieTaskClaude : TestResult :=
  { testName := some "T"
    test_name := none
    framework := "anthropic-sdk"
    model := "claude-opus"
    prompt := "p"
    response := "r"
    tokensIn := none
    tokens_in := none
    tokensOut := none
    tokens_out := none
    cost := some 0
    durationMs := some 1000
    duration_ms := none
    success := true
    error := none }

/-- C7 counterexample: the written report carries exactly one
winner-distribution tally (`speedWins`), and on an input whose only task
ties on speed while its cost verdict is `unknown`, that tally does not give
the cost-metric win/tie counts — so the report does not contain a tally for
both compared metrics. -/
theorem summary_tally_cost_counterexample :
    (mkReport (loadResults (some [tieTaskPi])) (loadResults (some [tieTaskClaude])) "t").summary.speedWins
      ≠ costWinsClaimed
          (mkReport (loadResults (some [tieTaskPi]))
            (loadResults (some [tieTaskClaude])) "t").comparisons := by
  norm_num [mkReport, loadResults, normaliseResult, buildComparisons, collectNames,
    dedupFirst, namesOf, getName, addName, mkComparison, mkSnapshot, speedVerdict,
    costVerdict, orElseNum, resolveNum, orElseStr, resolveStr, calculateBedrockCost,
    BEDROCK_INPUT_PRICE, BEDROCK_OUTPUT_PRICE, piTotalsOf, claudeTotalsOf,
    speedWinsOf, costWinsClaimed, tieTaskPi, tieTaskClaude]
  decide

/-- C5 counterexample: for the "Bug Detection" scenario records, the
recomputed costs are 0.03480 (= 0.00075 + 0.03405) and 0.035025
(= 0.00075 + 0.034275) — the output-token components are not 0.03255 and
0.03278, and participant A's cost is not within 0.0001 of 0.0335. -/
theorem scenario_claimed_cost_counterexample :
    (normaliseResult recA).cost = some (87 / 2500)
    ∧ (normaliseResult recB).cost = some (1401 / 40000)
    ∧ ((454 : ℚ) / 1000000 * 75 ≠ 3255 / 100000)
    ∧ ((457 : ℚ) / 1000000 * 75 ≠ 3278 / 100000)
    ∧ ¬((87 / 2500 : ℚ) - 335 / 10000 ≤ 1 / 10000
        ∧ (335 / 10000 : ℚ) - 87 / 2500 ≤ 1 / 10000) := by
  refine ⟨?_, ?_, by norm_num, by norm_num, by norm_num⟩
  · norm_num [normaliseResult, resolveNum, orElseNum, calculateBedrockCost,
      BEDROCK_INPUT_PRICE, BEDROCK_OUTPUT_PRICE, recA]
  · norm_num [normaliseResult, resolveNum, orElseNum, calculateBedrockCost,
      BEDROCK_INPUT_PRICE, BEDROCK_OUTPUT_PRICE, recB]

/-- C5 (amended): the end-to-end pipeline on the "Bug Detection" scenario
produces the single entry with recomputed costs 0.03480 and 0.035025,
speed verdict for participant A (pi) and cost verdict `tie`. -/
theorem scenario_end_to_end :
    buildComparisons (loadResults (some [recA])) (loadResults (some [recB]))
      = [{ testName := "Bug Detection"
           piSdk := { duration := 7340, tokensIn := 50, tokensOut := 454,
                      cost := 87 / 2500, success := true }
           claudeSdk := { duration := 8160, tokensIn := 50, tokensOut := 457,
                          cost := 1401 / 40000, success := true }
           winner := { speed := SpeedVerdict.pi, cost := CostVerdict.tie } }] := by
  norm_num [loadResults, normaliseResult, buildComparisons, collectNames, dedupFirst,
    namesOf, getName, addName, mkComparison, mkSnapshot, speedVerdict, costVerdict,
    orElseNum, resolveNum, orElseStr, resolveStr, calculateBedrockCost,
    BEDROCK_INPUT_PRICE, BEDROCK_OUTPUT_PRICE, recA, recB]
  decide

/-- C9: a present-but-falsy camelCase field loses the dual lookup — a zero
`tokensIn` (resp. `tokensOut`, `durationMs`) falls through to a positive
snake_case value, and an empty `testName` resolves to `test_name`, or to
"Unknown" when `test_name` is empty or absent. -/
theorem falsy_camel_fallback (r : TestResult) (n : ℚ) (s : String) (hn : 0 < n) :
    (r.tokensIn = some 0 → r.tokens_in = some n → (normaliseResult r).tokensIn = some n)
    ∧ (r.tokensOut = some 0 → r.tokens_out = some n →
        (normaliseResult r).tokensOut = some n)
    ∧ (r.durationMs = some 0 → r.duration_ms = some n →
        (normaliseResult r).durationMs = some n)
    ∧ (r.testName = some "" → r.test_name = none →
        (normaliseResult r).testName = some "Unknown")
    ∧ (r.testName = some "" → r.test_name = some "" →
        (normaliseResult r).testName = some "Unknown")
    ∧ (r.testName = some "" → r.test_name = some s → s ≠ "" →
        (normaliseResult r).testName = some s) := by
  refine ⟨?_, ?_, ?_, ?_, ?_, ?_⟩
  · intro h1 h2
    simp [normaliseResult, resolveNum, orElseNum, h1, h2, ne_of_gt hn]
  · intro h1 h2
    simp [normaliseResult, resolveNum, orElseNum, h1, h2, ne_of_gt hn]
  · intro h1 h2
    simp [normaliseResult, resolveNum, orElseNum, h1, h2, ne_of_gt hn]
  · intro h1 h2
    simp [normaliseResult, resolveStr, orElseStr, h1, h2]
  · intro h1 h2
    simp [normaliseResult, resolveStr, orElseStr, h1, h2]
  · intro h1 h2 hs
    simp [normaliseResult, resolveStr, orElseStr, h1, h2, hs]

/-- A record whose camelCase fields are present but falsy while the
snake_case fields carry real values. -/
def w9rec : TestResult :=
  { testName := some ""
    test_name := some "snake"
    framework := "f"
    model := "m"
    prompt := "p"
    response := "r"
    tokensIn := some 0
    tokens_in := some 5
    tokensOut := some 0
    tokens_out := some 5
    cost := none
    durationMs := some 0
    duration_ms := some 5
    success := true
    error := none }

/-- Witness for `falsy_camel_fallback` at a concrete record with zero
camelCase numerics and an empty camelCase name. -/
theorem falsy_camel_fallback_witness :
    (normaliseResult w9rec).tokensIn = some 5
    ∧ (normaliseResult w9rec).testName = some "snake" :=
  ⟨(falsy_camel_fallback w9rec 5 "snake" (by norm_num)).1 rfl rfl,
    (falsy_camel_fallback w9rec 5 "snake" (by norm_num)).2.2.2.2.2 rfl rfl (by decide)⟩
